import Mathlib

/-!
Shallow embedding of the AI Career Agent lambda functions
(`lambda_functions/job_search_agent.py`, `lambda_functions/enhanced_job_search_agent.py`,
`lambda_functions/enhanced_resume_optimizer.py`) and proofs of the specification claims.

Modelling conventions:
* Python dictionaries with a fixed set of accessed keys become Lean structures.
  Keys read with `d[k]` (which raises `KeyError` when missing) become plain fields;
  keys read with `d.get(k, default)` become `Option` fields, with `getD default`
  applied at the use site, matching the Python default.
* Python ints are `Int` (or `Nat` where the code only produces naturals),
  Python floats are exact rationals `ℚ` (float rounding error is outside the model).
* External effects (Bedrock `invoke_model`, S3 `put_object`, DynamoDB `put_item`,
  client construction) are parameters of type `Except String α`: `.error e`
  models the call raising an exception with message `e`.
* The wall clock (`datetime.now()` and its formattings) is passed in explicitly.
* `print` logging is modelled by returning the list of printed lines.
-/

/-- Characters matched by the regex class `\s` (ASCII part; the embedding models
ASCII text). -/
def isPySpace (c : Char) : Bool :=
  c = ' ' || c = '\t' || c = '\n' || c = '\r' || c = '\x0b' || c = '\x0c'

/-- Value of a run of decimal digits, as computed by Python `int` on the matched
group of a `\d+` regex. -/
def digitsToNat (ds : List Char) : Nat :=
  ds.foldl (fun a c => a * 10 + (c.toNat - '0'.toNat)) 0

/-- Python `re.search(r'\d+', s)` followed by `int(...)` on the match: the first
maximal run of decimal digits in `s`, if any. -/
def extractFirstNat (s : String) : Option Nat :=
  let ds := (s.data.dropWhile (fun c => !c.isDigit)).takeWhile Char.isDigit
  if ds.isEmpty then none else some (digitsToNat ds)

/-- Python `str.strip()`: remove leading and trailing whitespace. -/
def pyStrip (s : String) : String :=
  String.mk (((s.data.dropWhile isPySpace).reverse.dropWhile isPySpace).reverse)

/-- Python substring test `needle in hay` on strings. -/
def pyContains (needle hay : String) : Bool :=
  hay.data.tails.any (fun t => needle.data.isPrefixOf t)

/-- Python `str(x)` for an optional value, as interpolated into an f-string:
`None` prints as the string `None`. -/
def pyOptStr : Option String → String
  | some s => s
  | none => "None"

/-- Consume the literal character list `lit` from the front of `cs`. -/
def dropLit : List Char → List Char → Option (List Char)
  | [], cs => some cs
  | _ :: _, [] => none
  | l :: ls, c :: cs => if c = l then dropLit ls cs else none

/-- Insert a thousands separator after every third digit of a reversed digit
list (helper for Python `,` number formatting). -/
def commaRev : List Char → List Char
  | a :: b :: c :: d :: rest => a :: b :: c :: ',' :: commaRev (d :: rest)
  | l => l

/-- Python f-string `{n:,}` formatting of an integer: decimal digits in groups
of three separated by commas. -/
def commify (i : Int) : String :=
  let digits := (toString i.natAbs).data
  let grouped := (commaRev digits.reverse).reverse
  if i < 0 then String.mk ('-' :: grouped) else String.mk grouped

/-- Round-half-to-even on rationals, the rounding used by Python `format`. -/
def roundHalfEven (q : ℚ) : Int :=
  let f := ⌊q⌋
  let r := q - f
  if r < 1/2 then f
  else if r > 1/2 then f + 1
  else if f % 2 = 0 then f else f + 1

/-- Python f-string `{q:,.0f}`: round to an integer (half-to-even) and insert
thousands separators. -/
def fmtMoney0 (q : ℚ) : String :=
  commify (roundHalfEven q)

/-- Python f-string `{q:.1f}`: fixed-point with one decimal digit. -/
def fmt1dp (q : ℚ) : String :=
  let m := roundHalfEven (q * 10)
  if m < 0 then
    "-" ++ toString (m.natAbs / 10) ++ "." ++ toString (m.natAbs % 10)
  else
    toString (m.toNat / 10) ++ "." ++ toString (m.toNat % 10)

/-- Bump the count of `key` in an insertion-ordered association list, as Python
`d[key] = d.get(key, 0) + 1` does on a dict. -/
def bumpCount (acc : List (String × Nat)) (key : String) : List (String × Nat) :=
  if acc.any (fun p => p.1 = key) then
    acc.map (fun p => if p.1 = key then (p.1, p.2 + 1) else p)
  else
    acc ++ [(key, 1)]

/-- The user-profile dictionary. Every key is read via `.get`, so every field is
optional. -/
structure UserProfile where
  user_id : Option String := none
  job_domain : Option String := none
  location : Option String := none
  experience_level : Option String := none
  skills : Option (List String) := none
  salary_expectation : Option Int := none
  company_size_pref : Option String := none
  work_style : Option String := none
  industry_interest : Option String := none

namespace JobSearchAgent

/-- A job listing dictionary as produced by `generate_mock_job_listings`
(`job_search_agent.py`); all keys are always present. -/
structure Job where
  id : String
  title : String
  company : String
  location : String
  salary_min : Int
  salary_max : Int
  description : String
  requirements : List String
  posted_date : String
  application_url : String
  remote_friendly : Bool
  source : String

/-- A job dictionary after `ai_job_matching` has added the `match_score`,
`match_reasons` and `ai_recommendations` keys (the Python code mutates the job
dict in place; the embedding pairs the original job with the added keys). -/
structure ScoredJob where
  job : Job
  match_score : Int
  match_reasons : List String
  ai_recommendations : List String

/-- Transcription of `generate_mock_job_listings` (`job_search_agent.py`
lines 78-115). The wall-clock dependent `posted_date` string
`(datetime.now() - timedelta(days=i % 7)).isoformat()` is supplied by the
`isoDaysAgo` clock parameter. The `keywords` parameter is accepted and unused,
as in the source. -/
def generate_mock_job_listings (keywords location experience_level : String)
    (isoDaysAgo : Nat → String) : List Job :=
  let companies : List String :=
    ["TechCorp", "InnovateLab", "StartupXYZ", "DataDriven Inc", "CloudFirst",
     "AI Solutions", "DevOps Masters", "ScaleUp Co", "NextGen Tech", "FutureSoft"]
  let job_titles : List String :=
    ["Software Engineer", "Frontend Developer", "Backend Engineer", "Full Stack Developer",
     "Data Scientist", "Machine Learning Engineer", "DevOps Engineer", "Product Manager"]
  (List.range 25).map (fun i =>
    { id := "job_" ++ toString (i + 1)
      title := experience_level ++ " " ++ job_titles.getD (i % job_titles.length) ""
      company := companies.getD (i % companies.length) ""
      location := location
      salary_min := 70000 + (i : Int) * 2000
      salary_max := 95000 + (i : Int) * 3000
      description := "Exciting opportunity for a " ++ experience_level ++ " " ++
        job_titles.getD (i % job_titles.length) "" ++ " to join our growing team..."
      requirements :=
        ["Bachelor\x27s degree in Computer Science or related field",
         "Strong programming skills",
         "Experience with modern frameworks",
         "Excellent communication skills"]
      posted_date := isoDaysAgo (i % 7)
      application_url := "https://example.com/jobs/" ++ toString (i + 1)
      remote_friendly := i % 3 == 0
      source := if i % 3 == 0 then "indeed" else if i % 3 == 1 then "linkedin" else "glassdoor" })

/-- Transcription of `search_multiple_job_boards` (`job_search_agent.py`
lines 54-76): extracts search criteria with defaults and returns the mock
listings (the job-board API endpoints are never called). -/
def search_multiple_job_boards (user_profile : UserProfile)
    (isoDaysAgo : Nat → String) : List Job :=
  let keywords := user_profile.job_domain.getD "Software Engineer"
  let location := user_profile.location.getD "San Francisco"
  let experience_level := user_profile.experience_level.getD "Entry Level"
  generate_mock_job_listings keywords location experience_level isoDaysAgo

/-- Transcription of `calculate_ai_match_score` (`job_search_agent.py`
lines 156-202). The Bedrock endpoint is modelled as an oracle from invocation
index to outcome; the code performs exactly one `invoke_model` call, so only
`bedrock 0` is consulted. `.error` covers any exception raised while invoking
the model or reading the response body (all caught by the bare `except`,
returning the fallback score 50). On success the reply text is stripped and the
first run of digits is extracted; no digits yields the default 50, otherwise
the value is clamped with `min(100, max(0, ...))`. -/
def calculate_ai_match_score (bedrock : Nat → Except String String) : Nat :=
  match bedrock 0 with
  | .error _ => 50
  | .ok text =>
    let score_text := pyStrip text
    match extractFirstNat score_text with
    | some n => min 100 (max 0 n)
    | none => 50

/-- Transcription of `calculate_basic_match_score` (`job_search_agent.py`
lines 204-231). -/
def calculate_basic_match_score (job : Job) (user_profile : UserProfile) : Int :=
  let score : Int := 0
  let job_domain := (user_profile.job_domain.getD "").toLower
  let score := if pyContains job_domain job.title.toLower then score + 30 else score
  let user_salary := user_profile.salary_expectation.getD 75000
  let score :=
    if job.salary_min ≤ user_salary ∧ user_salary ≤ job.salary_max then score + 25
    else if (job.salary_min - user_salary).natAbs < 10000 then score + 15
    else score
  let user_location := (user_profile.location.getD "").toLower
  let score :=
    if pyContains user_location job.location.toLower || job.remote_friendly then score + 20
    else score
  let experience_level := (user_profile.experience_level.getD "").toLower
  let score := if pyContains experience_level job.title.toLower then score + 25 else score
  min 100 score

/-- Transcription of `generate_match_reasons` (`job_search_agent.py`
lines 233-250). The Python code reads `job['match_score']`, which
`ai_job_matching` stored on the job dict just before the call; the embedding
passes that score explicitly. -/
def generate_match_reasons (job : Job) (match_score : Int) (user_profile : UserProfile) :
    List String :=
  let reasons : List String := []
  let reasons :=
    if match_score > 80 then reasons ++ ["Excellent skills and experience alignment"]
    else if match_score > 60 then reasons ++ ["Good overall fit for your profile"]
    else reasons
  let reasons :=
    if job.remote_friendly then reasons ++ ["Offers remote work flexibility"] else reasons
  let user_salary := user_profile.salary_expectation.getD 75000
  let reasons :=
    if job.salary_max ≥ user_salary then reasons ++ ["Meets salary expectations"] else reasons
  reasons

/-- Transcription of `generate_application_recommendations`
(`job_search_agent.py` lines 252-266); `match_score` is passed explicitly as in
`generate_match_reasons`. -/
def generate_application_recommendations (job : Job) (match_score : Int)
    (user_profile : UserProfile) : List String :=
  let recommendations : List String :=
    ["Tailor your resume to highlight relevant experience",
     "Research the company culture and values",
     "Prepare specific examples of your technical skills"]
  if match_score > 85 then recommendations ++ ["High match - apply immediately!"]
  else if match_score < 60 then
    recommendations ++ ["Consider gaining additional skills before applying"]
  else recommendations

/-- One iteration of the loop of `ai_job_matching` (`job_search_agent.py`
lines 132-149). `attempt job` abstracts the per-job scoring step inside the
`try` block: the prompt construction together with `calculate_ai_match_score`.
It may raise (for example `KeyError` on a job dict missing a key used in the
prompt); on `.error` the except-branch falls back to basic matching. -/
def match_job_entry (attempt : Job → Except String Int) (user_profile : UserProfile)
    (job : Job) : ScoredJob :=
  match attempt job with
  | .ok match_score =>
    { job := job
      match_score := match_score
      match_reasons := generate_match_reasons job match_score user_profile
      ai_recommendations := generate_application_recommendations job match_score user_profile }
  | .error _ =>
    { job := job
      match_score := calculate_basic_match_score job user_profile
      match_reasons := ["Basic keyword matching"]
      ai_recommendations := ["Review job description carefully"] }

/-- Transcription of `ai_job_matching` (`job_search_agent.py` lines 117-154):
each loop iteration appends exactly one `match_job_entry`, then the list is
sorted by `match_score` descending (`list.sort(key=..., reverse=True)`, a
stable sort modelled by `mergeSort`). -/
def ai_job_matching (attempt : Job → Except String Int) (job_results : List Job)
    (user_profile : UserProfile) : List ScoredJob :=
  let matched_jobs := job_results.map (match_job_entry attempt user_profile)
  matched_jobs.mergeSort (fun a b => decide (b.match_score ≤ a.match_score))

/-- The JSON document `store_job_results` serialises into the S3 object body. -/
structure S3Body where
  jobs : List ScoredJob
  search_date : String
  user_id : Option String

/-- Transcription of `store_job_results` (`job_search_agent.py` lines 268-288).
`putObject bucket key body` models `s3_client.put_object`; any exception it
raises is caught, a failure line is printed, and execution continues. The
result is `Except` to make visible that no exception escapes: the payload is
the list of printed log lines. -/
def store_job_results (putObject : String → String → S3Body → Except String Unit)
    (matched_jobs : List ScoredJob) (user_id : Option String) (dateStr nowIso : String) :
    Except String (List String) :=
  let bucket_name := "ai-career-agent-data"
  let key := "job_searches/" ++ pyOptStr user_id ++ "/" ++ dateStr ++ ".json"
  match putObject bucket_name key
      { jobs := matched_jobs, search_date := nowIso, user_id := user_id } with
  | .ok _ => .ok []
  | .error e => .ok ["Failed to store job results in S3: " ++ e]

/-- The event argument of `lambda_handler`; both keys are read with `.get`. The
`search_params` value is forwarded but never inspected. -/
structure Event where
  user_profile : Option UserProfile
  search_params : Option Unit

/-- Wall-clock values consumed by the handler: `datetime.now().isoformat()`,
`(datetime.now() + timedelta(hours=24)).isoformat()`,
`datetime.now().strftime('%Y-%m-%d')`, and
`(datetime.now() - timedelta(days=n)).isoformat()`. -/
structure Clock where
  nowIso : String
  nextDayIso : String
  dateStr : String
  isoDaysAgo : Nat → String

/-- The body of the 200 response of `lambda_handler`. -/
structure SuccessBody where
  matched_jobs : List ScoredJob
  total_found : Nat
  search_timestamp : String
  next_search_scheduled : String

/-- The JSON body of a `lambda_handler` response: either the success payload or
the `{'error': str(e), 'message': 'Failed to execute job search'}` dict. -/
inductive RespBody where
  | success (b : SuccessBody)
  | failure (error : String) (message : String)

/-- A `lambda_handler` response dict. -/
structure LambdaResponse where
  statusCode : Nat
  body : RespBody

/-- The `try` block of `lambda_handler` (`job_search_agent.py` lines 14-43).
`bedrockInit` and `s3Init` model the two `boto3.client` constructions,
`bedrock job` is the per-job Bedrock oracle, `putObject` the S3 call. The
result is the successful response payload, or the first exception raised. -/
def lambda_handler_try (bedrockInit s3Init : Except String Unit)
    (bedrock : Job → Nat → Except String String)
    (putObject : String → String → S3Body → Except String Unit)
    (event : Event) (clock : Clock) : Except String SuccessBody := do
  let user_profile := (event.user_profile).getD {}
  let _ ← bedrockInit
  let _ ← s3Init
  let job_results := search_multiple_job_boards user_profile clock.isoDaysAgo
  let matched_jobs := ai_job_matching
    (fun job => .ok (Int.ofNat (calculate_ai_match_score (bedrock job))))
    job_results user_profile
  let _ ← store_job_results putObject matched_jobs user_profile.user_id
    clock.dateStr clock.nowIso
  pure
    { matched_jobs := matched_jobs.take 10
      total_found := job_results.length
      search_timestamp := clock.nowIso
      next_search_scheduled := clock.nextDayIso }

/-- Transcription of `lambda_handler` (`job_search_agent.py` lines 8-52): the
`try` block on success yields a 200 response; any exception is caught and
turned into a 500 response carrying `str(e)` and a fixed failure message. -/
def lambda_handler (bedrockInit s3Init : Except String Unit)
    (bedrock : Job → Nat → Except String String)
    (putObject : String → String → S3Body → Except String Unit)
    (event : Event) (clock : Clock) : LambdaResponse :=
  match lambda_handler_try bedrockInit s3Init bedrock putObject event clock with
  | .ok b => { statusCode := 200, body := .success b }
  | .error e => { statusCode := 500, body := .failure e "Failed to execute job search" }

end JobSearchAgent

namespace EnhancedAgent

/-- The `company_details` sub-dictionary of an enhanced job listing. `size` and
`industry` are read by plain indexing, `rating` via `.get('rating', 3.5)`. -/
structure CompanyDetails where
  size : String
  industry : String
  rating : Option ℚ

/-- An enhanced job listing dictionary (`enhanced_job_search_agent.py`), with
the fields read by the functions embedded here, including the computed fields
added by `enhance_job_data` (`salary_midpoint`, `days_since_posted`) and the
`match_score` added by matching. -/
structure EJob where
  title : String
  company : String
  location : String
  salary_min : Int
  salary_max : Int
  remote_friendly : Bool
  equity_offered : Bool
  company_details : CompanyDetails
  tech_stack : List String
  source : String
  days_since_posted : Int
  salary_midpoint : ℚ
  match_score : Int

/-- The relevant keys of a JSON object returned by the model for
`calculate_enhanced_ai_match_score`, each read with `dict.get` and a default.
A field is `none` when the key is absent. (Replies that are valid JSON but
whose values have unexpected Python types raise `TypeError` inside the `try`
and are folded into the `.failure` case of `ModelReply`.) -/
structure AIMatchJson where
  score : Option Int := none
  reasons : Option (List String) := none
  skill_gaps : Option (List String) := none
  growth_potential : Option String := none
  recommendations : Option (List String) := none

/-- Outcome of one round trip to the model, for a reply expected to parse to
`α`: either some exception was raised while invoking the model or reading the
response body (`failure`), or the reply text was obtained, paired with the
result of `json.loads` on it (`parsed = none` models `json.JSONDecodeError`,
i.e. the reply is not valid JSON). -/
inductive ModelReply (α : Type) where
  | failure (e : String)
  | reply (text : String) (parsed : Option α)

/-- The analysis dictionary produced by `calculate_enhanced_ai_match_score` and
`parse_ai_response_fallback`; all five keys are always present. -/
structure MatchAnalysis where
  score : Int
  reasons : List String
  skill_gaps : List String
  growth_potential : String
  recommendations : List String

/-- Match the regex `"?score"?\s*:\s*(\d+)` anchored at the head of `cs`,
returning the digit group. The optional quotes are consumed when present
(backtracking cannot produce a match that this deterministic reading misses,
since `\s*:` never matches a `"`). -/
def scoreFieldAt (cs : List Char) : Option Nat :=
  let cs := match cs with
    | '"' :: r => r
    | r => r
  match dropLit "score".data cs with
  | none => none
  | some cs =>
    let cs := match cs with
      | '"' :: r => r
      | r => r
    let cs := cs.dropWhile isPySpace
    match cs with
    | ':' :: cs =>
      let cs := cs.dropWhile isPySpace
      let ds := cs.takeWhile Char.isDigit
      if ds.isEmpty then none else some (digitsToNat ds)
    | _ => none

/-- Python `re.search(r'"?score"?\s*:\s*(\d+)', s)`: try the pattern at every
start position from the left and return the first digit group. -/
def findScoreField : List Char → Option Nat
  | [] => none
  | c :: rest =>
    match scoreFieldAt (c :: rest) with
    | some n => some n
    | none => findScoreField rest

/-- Transcription of `parse_ai_response_fallback`
(`enhanced_job_search_agent.py` lines 502-515): extract a `score: NN` field by
regex (default 50), clamp it to 0..100, and return the fixed fallback
dictionary. -/
def parse_ai_response_fallback (response_text : String) : MatchAnalysis :=
  let score : Int := ((findScoreField response_text.data).map Int.ofNat).getD 50
  { score := max 0 (min 100 score)
    reasons := ["Basic compatibility assessment"]
    skill_gaps := ["Manual review recommended"]
    growth_potential := "Requires further analysis"
    recommendations := ["Research company and role thoroughly"] }

/-- Transcription of `calculate_enhanced_ai_match_score`
(`enhanced_job_search_agent.py` lines 421-500). On a reply that parses as JSON
the fields are sanitised (score clamped via `max(0, min(100, ...))`, defaults
for missing keys); on `json.JSONDecodeError` the fallback parser is used; on
any other exception the hard-coded degraded dictionary is returned. -/
def calculate_enhanced_ai_match_score (r : ModelReply AIMatchJson) : MatchAnalysis :=
  match r with
  | .failure _ =>
    { score := 50
      reasons := ["AI analysis temporarily unavailable"]
      skill_gaps := ["Unable to assess"]
      growth_potential := "Assessment unavailable"
      recommendations := ["Review job description manually"] }
  | .reply text parsed =>
    match parsed with
    | some analysis =>
      { score := max 0 (min 100 (analysis.score.getD 50))
        reasons := analysis.reasons.getD ["AI analysis unavailable"]
        skill_gaps := analysis.skill_gaps.getD []
        growth_potential := analysis.growth_potential.getD "Assessment unavailable"
        recommendations := analysis.recommendations.getD ["Review job requirements carefully"] }
    | none => parse_ai_response_fallback text

/-- The dictionary returned by `analyze_salary_fit`. -/
structure SalaryFit where
  fit_level : String
  message : String
  negotiation_potential : String

/-- Transcription of `analyze_salary_fit` (`enhanced_job_search_agent.py`
lines 517-542). `job_mid` is the Python float `(job_min + job_max) / 2`,
modelled exactly as a rational. -/
def analyze_salary_fit (job : EJob) (user_profile : UserProfile) : SalaryFit :=
  let user_expectation := user_profile.salary_expectation.getD 75000
  let job_min := job.salary_min
  let job_max := job.salary_max
  let job_mid : ℚ := ((job_min : ℚ) + (job_max : ℚ)) / 2
  let fit : String × String :=
    if user_expectation ≤ job_max ∧ user_expectation ≥ job_min then
      ("Excellent",
        "Salary range $" ++ commify job_min ++ "-$" ++ commify job_max ++
          " meets your expectation of $" ++ commify user_expectation)
    else if user_expectation < job_min then
      ("Above Expectations",
        "Salary range $" ++ commify job_min ++ "-$" ++ commify job_max ++
          " exceeds your expectation of $" ++ commify user_expectation)
    else if (user_expectation : ℚ) ≤ job_mid then
      ("Good", "Salary negotiable within range $" ++ commify job_min ++ "-$" ++ commify job_max)
    else
      ("Below Expectations",
        "Salary range $" ++ commify job_min ++ "-$" ++ commify job_max ++
          " below expectation of $" ++ commify user_expectation)
  { fit_level := fit.1
    message := fit.2
    negotiation_potential := if job.equity_offered then "High" else "Medium" }

/-- Transcription of `assess_work_style_fit` (`enhanced_job_search_agent.py`
lines 575-583). -/
def assess_work_style_fit (user_style : String) (job : EJob) : Bool :=
  if user_style = "Remote" then job.remote_friendly || job.location == "Remote"
  else if user_style = "On-site" then job.location != "Remote"
  else true

/-- The dictionary returned by `analyze_culture_fit`. -/
structure CultureFit where
  score : Int
  company_size_fit : Bool
  work_style_fit : Bool
  industry_alignment : Bool

/-- Transcription of `analyze_culture_fit` (`enhanced_job_search_agent.py`
lines 544-573): a base score 70 with three bonuses, capped at 100. -/
def analyze_culture_fit (job : EJob) (user_profile : UserProfile) : CultureFit :=
  let company_size := job.company_details.size
  let user_pref := user_profile.company_size_pref.getD "Any"
  let work_style := user_profile.work_style.getD "Hybrid"
  let culture_score : Int := 70
  let culture_score :=
    if user_pref = "Any" ∨ user_pref = company_size then culture_score + 15 else culture_score
  let culture_score :=
    if work_style = "Remote" ∧ job.remote_friendly then culture_score + 10
    else if work_style = "Hybrid" ∧ (job.location ≠ "Remote" ∨ job.remote_friendly) then
      culture_score + 5
    else culture_score
  let user_industry := user_profile.industry_interest.getD "Technology"
  let culture_score :=
    if pyContains user_industry.toLower job.company_details.industry.toLower then
      culture_score + 5
    else culture_score
  { score := min 100 culture_score
    company_size_fit := company_size == user_pref || user_pref == "Any"
    work_style_fit := assess_work_style_fit work_style job
    industry_alignment := pyContains user_industry.toLower job.company_details.industry.toLower }

/-- Transcription of `calculate_urgency_score` (`enhanced_job_search_agent.py`
lines 649-661): a pure threshold table on `days_since_posted`. -/
def calculate_urgency_score (job : EJob) : Int :=
  let days_posted := job.days_since_posted
  if days_posted ≤ 3 then 90
  else if days_posted ≤ 7 then 70
  else if days_posted ≤ 14 then 50
  else 30

/-- Transcription of `calculate_competitiveness_score`
(`enhanced_job_search_agent.py` lines 663-687): base 50 plus bonuses, capped
at 100. The Python float literals `3.5` and `4.0` are exact rationals. -/
def calculate_competitiveness_score (job : EJob) : Int :=
  let score : Int := 50
  let score :=
    if job.salary_max > 120000 then score + 20
    else if job.salary_max > 90000 then score + 10
    else score
  let score := if job.remote_friendly then score + 15 else score
  let score := if job.equity_offered then score + 10 else score
  let company_rating := job.company_details.rating.getD (3.5 : ℚ)
  let score := if company_rating ≥ (4.0 : ℚ) then score + 10 else score
  min 100 score

/-- Transcription of `get_most_common_skills` (`enhanced_job_search_agent.py`
lines 836-844): count skills in a dict (insertion-ordered association list)
and sort the keys by count, descending (Python `sorted(..., reverse=True)` is
stable, modelled by `mergeSort`). -/
def get_most_common_skills (tech_stacks : List (List String)) : List String :=
  let skill_count := tech_stacks.foldl (fun acc stack => stack.foldl bumpCount acc) []
  (skill_count.mergeSort (fun a b => decide (b.2 ≤ a.2))).map (fun p => p.1)

/-- Transcription of `assess_market_competitiveness`
(`enhanced_job_search_agent.py` lines 846-858). Only called on a non-empty
list (the Python code would raise `ZeroDivisionError` otherwise). -/
def assess_market_competitiveness (jobs : List EJob) : String :=
  let avg_match_score : ℚ :=
    (jobs.map (fun job => (job.match_score : ℚ))).sum / (jobs.length : ℚ)
  if avg_match_score ≥ 80 then "Highly Favorable"
  else if avg_match_score ≥ 65 then "Favorable"
  else if avg_match_score ≥ 50 then "Competitive"
  else "Challenging"

/-- Transcription of `generate_market_recommendations`
(`enhanced_job_search_agent.py` lines 860-887). The float literals `1.1`,
`0.9`, `0.6` are exact rationals. -/
def generate_market_recommendations (jobs : List EJob) (user_profile : UserProfile) :
    List String :=
  let recommendations : List String := []
  let user_expectation := user_profile.salary_expectation.getD 75000
  let avg_offered : ℚ := (jobs.map (fun job => job.salary_midpoint)).sum / (jobs.length : ℚ)
  let recommendations :=
    if avg_offered > (user_expectation : ℚ) * (1.1 : ℚ) then
      recommendations ++ ["Market offers $" ++ fmtMoney0 avg_offered ++
        " on average - consider raising salary expectations"]
    else if avg_offered < (user_expectation : ℚ) * (0.9 : ℚ) then
      recommendations ++ ["Market average $" ++ fmtMoney0 avg_offered ++
        " is below expectations - consider expanding search criteria"]
    else recommendations
  let remote_jobs := jobs.filter (fun job => job.remote_friendly)
  let recommendations :=
    if (remote_jobs.length : ℚ) > (jobs.length : ℚ) * (0.6 : ℚ) then
      recommendations ++
        ["Strong remote work opportunities available - highlight remote work experience"]
    else recommendations
  let common_skills := get_most_common_skills (jobs.map (fun job => job.tech_stack))
  let user_skills := user_profile.skills.getD []
  let missing_skills := (common_skills.take 3).filter (fun skill => !user_skills.contains skill)
  let recommendations :=
    if missing_skills ≠ [] then
      recommendations ++ ["Consider learning " ++ String.intercalate ", " missing_skills ++
        " - highly demanded in current market"]
    else recommendations
  recommendations

/-- Transcription of `suggest_skill_development` (`enhanced_job_search_agent.py`
lines 889-909): frequency-count all tech-stack entries, sort by frequency
descending (stable), and format the first five not already in the user's
skills (lower-cased comparison), exactly what the bounded accumulation loop
collects. -/
def suggest_skill_development (jobs : List EJob) (user_profile : UserProfile) : List String :=
  let all_requirements := (jobs.map (fun job => job.tech_stack)).flatten
  let skill_frequency := all_requirements.foldl bumpCount []
  let user_skills := (user_profile.skills.getD []).map String.toLower
  let sorted_skills := skill_frequency.mergeSort (fun a b => decide (b.2 ≤ a.2))
  ((sorted_skills.filter (fun kv => !user_skills.contains kv.1.toLower)).take 5).map
    (fun kv => kv.1 ++ " (mentioned in " ++ toString kv.2 ++ " job listings)")

/-- The `market_insights` sub-dictionary of `generate_search_insights`. -/
structure MarketInsights where
  average_salary_offered : String
  remote_work_availability : String
  top_hiring_companies : List String
  in_demand_skills : List String
  job_market_competitiveness : String

/-- The dictionary returned by `generate_search_insights`: either the
no-results message dict or the full report. -/
inductive Insights where
  | message (m : String)
  | report (market_insights : MarketInsights) (recommendations : List String)
      (skill_development_suggestions : List String)

/-- Transcription of `generate_search_insights` (`enhanced_job_search_agent.py`
lines 812-834). -/
def generate_search_insights (matched_jobs : List EJob) (user_profile : UserProfile) :
    Insights :=
  if matched_jobs.isEmpty then .message "No jobs found matching criteria"
  else
    let avg_salary : ℚ :=
      (matched_jobs.map (fun job => job.salary_midpoint)).sum / (matched_jobs.length : ℚ)
    let remote_percentage : ℚ :=
      (((matched_jobs.filter (fun job => job.remote_friendly)).length : ℚ) /
        (matched_jobs.length : ℚ)) * 100
    let top_companies := (matched_jobs.take 5).map (fun job => job.company)
    let common_skills := get_most_common_skills (matched_jobs.map (fun job => job.tech_stack))
    .report
      { average_salary_offered := "$" ++ fmtMoney0 avg_salary
        remote_work_availability := fmt1dp remote_percentage ++ "%"
        top_hiring_companies := top_companies
        in_demand_skills := common_skills.take 5
        job_market_competitiveness := assess_market_competitiveness matched_jobs }
      (generate_market_recommendations matched_jobs user_profile)
      (suggest_skill_development matched_jobs user_profile)

/-- The `search_params` sub-dictionary of a stored search record; all four
values are read from the profile with `.get` and no default. -/
structure SearchParamsRec where
  job_domain : Option String
  location : Option String
  experience_level : Option String
  salary_expectation : Option Int

/-- The `results_summary` sub-dictionary of a stored search record. -/
structure ResultsSummary where
  total_jobs_found : Nat
  top_match_score : Int
  average_match_score : ℚ
  sources_searched : List String
  salary_range_min : Int
  salary_range_max : Int

/-- A DynamoDB search record as built by `store_job_results_enhanced`. -/
structure SearchRecord where
  searchId : String
  userId : String
  timestamp : String
  search_params : SearchParamsRec
  results_summary : ResultsSummary
  top_matches : List EJob
  ai_insights : Insights
  ttl : Int

/-- Transcription of `store_job_results_enhanced`
(`enhanced_job_search_agent.py` lines 775-810). `tableAccess` models
`dynamodb.Table(os.environ[...])` (raises when the environment variable is
absent), `putItem` models `table.put_item`; every exception is caught by the
surrounding `try`/`except`, which prints a failure line. The wall clock enters
as `nowIso` (`isoformat()`), `nowStamp` (`strftime('%Y%m%d_%H%M%S')`) and
`nowEpoch` (`int(datetime.now().timestamp())`, in seconds);
`timedelta(days=90)` is 90 * 86400 seconds. The Python `set` iteration order
for `sources_searched` is unspecified; the embedding keeps first-occurrence
order. The result pairs the record successfully written (if any) with the
printed log lines. -/
def store_job_results_enhanced (tableAccess : Except String Unit)
    (putItem : SearchRecord → Except String Unit) (matched_jobs : List EJob)
    (user_profile : UserProfile) (nowIso nowStamp : String) (nowEpoch : Int) :
    Option SearchRecord × List String :=
  match tableAccess with
  | .error e => (none, ["Failed to store job results in DynamoDB: " ++ e])
  | .ok _ =>
    match user_profile.user_id with
    | none =>
      (none, ["Failed to store job results in DynamoDB: \x27user_id\x27"])
    | some uid =>
      let search_record : SearchRecord :=
        { searchId := "search_" ++ nowStamp ++ "_" ++ uid
          userId := uid
          timestamp := nowIso
          search_params :=
            { job_domain := user_profile.job_domain
              location := user_profile.location
              experience_level := user_profile.experience_level
              salary_expectation := user_profile.salary_expectation }
          results_summary :=
            { total_jobs_found := matched_jobs.length
              top_match_score := ((matched_jobs.head?).map (fun job => job.match_score)).getD 0
              average_match_score :=
                if matched_jobs.isEmpty then 0
                else (matched_jobs.map (fun job => (job.match_score : ℚ))).sum /
                  (matched_jobs.length : ℚ)
              sources_searched := (matched_jobs.map (fun job => job.source)).dedup
              salary_range_min :=
                if matched_jobs.isEmpty then 0
                else ((matched_jobs.map (fun job => job.salary_min)).min?).getD 0
              salary_range_max :=
                if matched_jobs.isEmpty then 0
                else ((matched_jobs.map (fun job => job.salary_max)).max?).getD 0 }
          top_matches := matched_jobs.take 10
          ai_insights := generate_search_insights matched_jobs user_profile
          ttl := nowEpoch + 90 * 86400 }
      match putItem search_record with
      | .ok _ =>
        (some search_record,
          ["Successfully stored job search results for user " ++ uid])
      | .error e => (none, ["Failed to store job results in DynamoDB: " ++ e])

end EnhancedAgent

namespace ResumeOptimizer

/-- A parsed JSON value, the result of Python `json.loads` when it succeeds
(used for the ATS analysis, whose parsed reply is returned as-is and never
inspected field by field). -/
inductive JsonVal where
  | str (s : String)
  | num (q : ℚ)
  | boolean (b : Bool)
  | null
  | arr (xs : List JsonVal)
  | obj (fields : List (String × JsonVal))

/-- Python dict assignment `d[k] = v` on an insertion-ordered association
list: update in place when the key exists, else append. -/
def setKey (fields : List (String × JsonVal)) (k : String) (v : JsonVal) :
    List (String × JsonVal) :=
  if fields.any (fun p => p.1 = k) then
    fields.map (fun p => if p.1 = k then (k, v) else p)
  else fields ++ [(k, v)]

/-- The `keyword_analysis` sub-dictionary of the fallback ATS analysis. -/
structure KeywordAnalysis where
  matched_keywords : List String
  missing_keywords : List String
  keyword_density : String
  natural_integration : String

/-- The `format_analysis` sub-dictionary of the fallback ATS analysis. -/
structure FormatAnalysis where
  structure_score : Int
  readability_score : Int
  section_organization : String
  formatting_issues : List String

/-- The `content_optimization` sub-dictionary of the fallback ATS analysis. -/
structure ContentOptimization where
  quantified_achievements : Int
  action_verbs : List String
  skills_placement : String
  experience_relevance : String

/-- The statically defined fallback ATS analysis dictionary. -/
structure AtsFallback where
  overall_ats_score : Int
  keyword_analysis : KeywordAnalysis
  format_analysis : FormatAnalysis
  content_optimization : ContentOptimization
  recommendations : List String
  pass_probability : String
  analysis_date : String
  note : String

/-- The dictionary returned by `analyze_ats_compatibility`: either the parsed
model reply (with `analysis_date` added) or the fallback dictionary. -/
inductive AtsResult where
  | fromModel (j : JsonVal)
  | fallback (f : AtsFallback)

/-- Transcription of `create_fallback_ats_analysis`
(`enhanced_resume_optimizer.py` lines 602-634): the fixed dictionary returned
whenever the AI analysis fails; only `analysis_date` depends on the clock. -/
def create_fallback_ats_analysis (nowIso : String) : AtsFallback :=
  { overall_ats_score := 70
    keyword_analysis :=
      { matched_keywords := ["Manual analysis required"]
        missing_keywords := ["Manual analysis required"]
        keyword_density := "Unable to analyze"
        natural_integration := "Manual review needed" }
    format_analysis :=
      { structure_score := 70
        readability_score := 70
        section_organization := "Standard format detected"
        formatting_issues := ["Manual review recommended"] }
    content_optimization :=
      { quantified_achievements := 0
        action_verbs := ["Manual analysis required"]
        skills_placement := "Manual review needed"
        experience_relevance := "Manual assessment required" }
    recommendations :=
      ["Conduct manual ATS compatibility review",
       "Ensure keywords from job description are included",
       "Use standard section headings",
       "Include quantified achievements"]
    pass_probability := "Medium"
    analysis_date := nowIso
    note := "AI analysis unavailable - manual review recommended" }

/-- Transcription of `analyze_ats_compatibility`
(`enhanced_resume_optimizer.py` lines 533-600). On a reply parsing to a JSON
object, `analysis_date` is set and the object returned; on
`json.JSONDecodeError` (`parsed = none`) the inner `except` returns the
fallback; a valid-JSON non-object reply raises `TypeError` on the
`ats_analysis['analysis_date'] = ...` assignment, which the outer `except`
also answers with the fallback, as it does for any exception during the model
invocation (`.failure`). -/
def analyze_ats_compatibility (r : EnhancedAgent.ModelReply JsonVal) (nowIso : String) :
    AtsResult :=
  match r with
  | .failure _ => .fallback (create_fallback_ats_analysis nowIso)
  | .reply _ parsed =>
    match parsed with
    | some (JsonVal.obj fields) =>
      .fromModel (JsonVal.obj (setKey fields "analysis_date" (JsonVal.str nowIso)))
    | some _ => .fallback (create_fallback_ats_analysis nowIso)
    | none => .fallback (create_fallback_ats_analysis nowIso)

end ResumeOptimizer

/-- C1: for every model reply that is not valid JSON (`json.loads` raises
`JSONDecodeError`, modelled by `parsed = none`), the analysis functions return
the statically defined fallback dictionaries rather than raising:
`calculate_enhanced_ai_match_score` returns the dict built by
`parse_ai_response_fallback`, and `analyze_ats_compatibility` returns the dict
built by `create_fallback_ats_analysis`. -/
theorem C1_invalid_json_yields_fallback_dicts (text nowIso : String) :
    EnhancedAgent.calculate_enhanced_ai_match_score (.reply text none) =
      EnhancedAgent.parse_ai_response_fallback text ∧
    ResumeOptimizer.analyze_ats_compatibility (.reply text none) nowIso =
      .fallback (ResumeOptimizer.create_fallback_ats_analysis nowIso) :=
  ⟨rfl, rfl⟩

/-- C5: every search record written to the key-value table by
`store_job_results_enhanced` carries a time-to-live attribute: its `ttl` field
equals the integer Unix timestamp of the write time plus 90 days
(90 * 86400 seconds). -/
theorem C5_search_record_ttl_is_ninety_days (tableAccess : Except String Unit)
    (putItem : EnhancedAgent.SearchRecord → Except String Unit)
    (matched_jobs : List EnhancedAgent.EJob) (user_profile : UserProfile)
    (nowIso nowStamp : String) (nowEpoch : Int) :
    ((EnhancedAgent.store_job_results_enhanced tableAccess putItem matched_jobs user_profile
        nowIso nowStamp nowEpoch).1).all
      (fun record => record.ttl == nowEpoch + 90 * 86400) = true := by
  unfold EnhancedAgent.store_job_results_enhanced
  cases tableAccess with
  | error e => rfl
  | ok _ =>
    cases user_profile.user_id with
    | none => rfl
    | some uid =>
      dsimp only
      split
      · simp [Option.all]
      · rfl

/-- C6: `calculate_urgency_score` is the threshold table on
`days_since_posted`: 90 for `d ≤ 3`, 70 for `3 < d ≤ 7`, 50 for `7 < d ≤ 14`,
30 for `d > 14`, and no other value is ever returned. -/
theorem C6_urgency_score_threshold_table (job : EnhancedAgent.EJob) :
    (job.days_since_posted ≤ 3 → EnhancedAgent.calculate_urgency_score job = 90) ∧
    (3 < job.days_since_posted → job.days_since_posted ≤ 7 →
      EnhancedAgent.calculate_urgency_score job = 70) ∧
    (7 < job.days_since_posted → job.days_since_posted ≤ 14 →
      EnhancedAgent.calculate_urgency_score job = 50) ∧
    (14 < job.days_since_posted → EnhancedAgent.calculate_urgency_score job = 30) ∧
    (EnhancedAgent.calculate_urgency_score job = 90 ∨
     EnhancedAgent.calculate_urgency_score job = 70 ∨
     EnhancedAgent.calculate_urgency_score job = 50 ∨
     EnhancedAgent.calculate_urgency_score job = 30) := by
  unfold EnhancedAgent.calculate_urgency_score
  refine ⟨?_, ?_, ?_, ?_, ?_⟩ <;> intros <;> dsimp only <;> split_ifs <;> omega

/-- C6 witness: a job posted two days ago scores exactly 90. -/
theorem C6_urgency_score_witness :
    EnhancedAgent.calculate_urgency_score
      { title := "Software Engineer", company := "TechCorp", location := "Remote"
        salary_min := 70000, salary_max := 95000, remote_friendly := true
        equity_offered := false
        company_details := { size := "Large", industry := "Technology", rating := none }
        tech_stack := [], source := "indeed", days_since_posted := 2
        salary_midpoint := 82500, match_score := 0 } = 90 :=
  (C6_urgency_score_threshold_table _).1 (by decide)

/-- C7: `store_job_results` wraps the S3 call in `try`/`except`: whatever
exception the storage client raises, the function returns normally (the result
is always `.ok`), logging the failure, so a storage failure never changes the
caller's success response. -/
theorem C7_store_job_results_never_propagates
    (putObject : String → String → JobSearchAgent.S3Body → Except String Unit)
    (matched_jobs : List JobSearchAgent.ScoredJob) (user_id : Option String)
    (dateStr nowIso : String) :
    (JobSearchAgent.store_job_results putObject matched_jobs user_id dateStr nowIso).isOk =
      true ∧
    (∀ e, (∀ b k body, putObject b k body = .error e) →
      JobSearchAgent.store_job_results putObject matched_jobs user_id dateStr nowIso =
        .ok ["Failed to store job results in S3: " ++ e]) := by
  constructor
  · unfold JobSearchAgent.store_job_results
    dsimp only
    split <;> rfl
  · intro e h
    unfold JobSearchAgent.store_job_results
    dsimp only
    rw [h]

/-- C7 witness: with a storage client that always raises, `store_job_results`
returns `.ok` with the logged failure line. -/
theorem C7_store_job_results_witness :
    JobSearchAgent.store_job_results (fun _ _ _ => .error "AccessDenied") [] none "2025-01-01"
      "2025-01-01T00:00:00" = .ok ["Failed to store job results in S3: " ++ "AccessDenied"] :=
  (C7_store_job_results_never_propagates _ _ _ _ _).2 "AccessDenied" (fun _ _ _ => rfl)

/-- C2: for every input event on which processing raises an exception,
`lambda_handler` of the job search agent catches it and returns a response
with `statusCode` 500 whose body carries the error string and the failure
message `Failed to execute job search`; no exception propagates, since every
call returns a plain 200 or 500 response. -/
theorem C2_handler_returns_500_on_exception :
    (∀ bedrockInit s3Init bedrock putObject event clock e,
      JobSearchAgent.lambda_handler_try bedrockInit s3Init bedrock putObject event clock =
        .error e →
      JobSearchAgent.lambda_handler bedrockInit s3Init bedrock putObject event clock =
        { statusCode := 500, body := .failure e "Failed to execute job search" }) ∧
    (∀ bedrockInit s3Init bedrock putObject event clock,
      (JobSearchAgent.lambda_handler bedrockInit s3Init bedrock putObject event clock).statusCode
          = 200 ∨
      (JobSearchAgent.lambda_handler bedrockInit s3Init bedrock putObject event clock).statusCode
          = 500) := by
  constructor
  · intro bedrockInit s3Init bedrock putObject event clock e h
    unfold JobSearchAgent.lambda_handler
    rw [h]
  · intro bedrockInit s3Init bedrock putObject event clock
    unfold JobSearchAgent.lambda_handler
    cases JobSearchAgent.lambda_handler_try bedrockInit s3Init bedrock putObject event clock <;>
      simp

/-- C2 witness: when the Bedrock client constructor raises, the handler
returns the 500 response with the error string. -/
theorem C2_handler_witness :
    JobSearchAgent.lambda_handler (.error "boto3 unavailable") (.ok ()) (fun _ _ => .ok "")
      (fun _ _ _ => .ok ()) { user_profile := none, search_params := none }
      { nowIso := "", nextDayIso := "", dateStr := "", isoDaysAgo := fun _ => "" } =
    { statusCode := 500,
      body := .failure "boto3 unavailable" "Failed to execute job search" } :=
  C2_handler_returns_500_on_exception.1 _ _ _ _ _ _ "boto3 unavailable" rfl

/-- C3: the deterministic scoring heuristics are bounded: for every job and
user profile, `calculate_basic_match_score`, the `score` field of
`analyze_culture_fit`, and `calculate_competitiveness_score` all lie between 0
and 100. -/
theorem C3_heuristic_scores_bounded (job : JobSearchAgent.Job)
    (ejob : EnhancedAgent.EJob) (user_profile : UserProfile) :
    (0 ≤ JobSearchAgent.calculate_basic_match_score job user_profile ∧
      JobSearchAgent.calculate_basic_match_score job user_profile ≤ 100) ∧
    (0 ≤ (EnhancedAgent.analyze_culture_fit ejob user_profile).score ∧
      (EnhancedAgent.analyze_culture_fit ejob user_profile).score ≤ 100) ∧
    (0 ≤ EnhancedAgent.calculate_competitiveness_score ejob ∧
      EnhancedAgent.calculate_competitiveness_score ejob ≤ 100) := by
  refine ⟨?_, ?_, ?_⟩
  · unfold JobSearchAgent.calculate_basic_match_score
    dsimp only
    split_ifs <;> constructor <;> simp [min_def]
  · unfold EnhancedAgent.analyze_culture_fit
    dsimp only
    split_ifs <;> constructor <;> simp [min_def]
  · unfold EnhancedAgent.calculate_competitiveness_score
    dsimp only
    split_ifs <;> constructor <;> simp [min_def]

/-- C4: `calculate_ai_match_score` consults the model endpoint exactly once
(its result depends only on the first response: no retry, no backoff); on any
exception from the invocation it returns the default score 50; when the reply
contains no digit sequence it also returns 50; otherwise it returns the first
extracted integer clamped to 0..100. -/
theorem C4_single_invocation_default_and_clamp (bedrock : Nat → Except String String) :
    (∀ bedrock2 : Nat → Except String String, bedrock 0 = bedrock2 0 →
      JobSearchAgent.calculate_ai_match_score bedrock =
        JobSearchAgent.calculate_ai_match_score bedrock2) ∧
    (∀ e, bedrock 0 = .error e → JobSearchAgent.calculate_ai_match_score bedrock = 50) ∧
    (∀ t, bedrock 0 = .ok t → extractFirstNat (pyStrip t) = none →
      JobSearchAgent.calculate_ai_match_score bedrock = 50) ∧
    (∀ t n, bedrock 0 = .ok t → extractFirstNat (pyStrip t) = some n →
      JobSearchAgent.calculate_ai_match_score bedrock = min 100 (max 0 n)) := by
  refine ⟨?_, ?_, ?_, ?_⟩
  · intro bedrock2 h
    unfold JobSearchAgent.calculate_ai_match_score
    rw [h]
  · intro e h
    unfold JobSearchAgent.calculate_ai_match_score
    rw [h]
  · intro t h hn
    unfold JobSearchAgent.calculate_ai_match_score
    rw [h]
    dsimp only
    rw [hn]
  · intro t n h hn
    unfold JobSearchAgent.calculate_ai_match_score
    rw [h]
    dsimp only
    rw [hn]

/-- C4 witness: a reply text carrying the digits 87 yields the clamped
score 87; the clamp `min 100 (max 0 87)` evaluates to 87. -/
theorem C4_witness :
    JobSearchAgent.calculate_ai_match_score (fun _ => .ok " Match score: 87. ") =
      min 100 (max 0 87) :=
  (C4_single_invocation_default_and_clamp _).2.2.2 " Match score: 87. " 87 rfl (by decide)

/-- C8: for every model reply, including replies whose parsed `score` lies
outside 0..100 or is missing, the `score` field of the dictionary returned by
`calculate_enhanced_ai_match_score` is clamped to 0..100; a missing score
defaults to 50 on the successful-parse path, and on the fallback path through
`parse_ai_response_fallback` a reply without a `score` field also yields 50. -/
theorem C8_enhanced_match_score_clamped :
    (∀ r : EnhancedAgent.ModelReply EnhancedAgent.AIMatchJson,
      0 ≤ (EnhancedAgent.calculate_enhanced_ai_match_score r).score ∧
        (EnhancedAgent.calculate_enhanced_ai_match_score r).score ≤ 100) ∧
    (∀ (text : String) (a : EnhancedAgent.AIMatchJson), a.score = none →
      (EnhancedAgent.calculate_enhanced_ai_match_score (.reply text (some a))).score = 50) ∧
    (∀ text : String, EnhancedAgent.findScoreField text.data = none →
      (EnhancedAgent.calculate_enhanced_ai_match_score (.reply text none)).score = 50) := by
  refine ⟨?_, ?_, ?_⟩
  · intro r
    cases r with
    | failure e =>
      constructor <;> norm_num [EnhancedAgent.calculate_enhanced_ai_match_score]
    | reply text parsed =>
      cases parsed with
      | some a =>
        dsimp only [EnhancedAgent.calculate_enhanced_ai_match_score]
        constructor <;> simp [le_max_iff, max_le_iff, min_le_iff]
      | none =>
        dsimp only [EnhancedAgent.calculate_enhanced_ai_match_score,
          EnhancedAgent.parse_ai_response_fallback]
        constructor <;> simp [le_max_iff, max_le_iff, min_le_iff]
  · intro text a h
    simp [EnhancedAgent.calculate_enhanced_ai_match_score, h]
  · intro text h
    simp [EnhancedAgent.calculate_enhanced_ai_match_score,
      EnhancedAgent.parse_ai_response_fallback, h]

/-- C8 witness: a valid-JSON reply whose object has no `score` key yields
score 50. -/
theorem C8_enhanced_match_score_witness :
    (EnhancedAgent.calculate_enhanced_ai_match_score
      (.reply "analysis" (some {}))).score = 50 :=
  C8_enhanced_match_score_clamped.2.1 "analysis" {} rfl

/-- The loop body of `ai_job_matching` keeps the input job unchanged in the
`job` field on both branches. -/
theorem match_job_entry_preserves_job (attempt : JobSearchAgent.Job → Except String Int)
    (user_profile : UserProfile) (job : JobSearchAgent.Job) :
    (JobSearchAgent.match_job_entry attempt user_profile job).job = job := by
  cases h : attempt job <;> simp [JobSearchAgent.match_job_entry, h]

/-- The loop body of `ai_job_matching` assigns the AI score on success and the
basic fallback score on an exception. -/
theorem match_job_entry_score (attempt : JobSearchAgent.Job → Except String Int)
    (user_profile : UserProfile) (job : JobSearchAgent.Job) :
    (JobSearchAgent.match_job_entry attempt user_profile job).match_score =
      match attempt job with
      | .ok s => s
      | .error _ => JobSearchAgent.calculate_basic_match_score job user_profile := by
  cases h : attempt job <;> simp [JobSearchAgent.match_job_entry, h]

/-- C9: `ai_job_matching` returns exactly the input jobs — each augmented with
a `match_score` from either the AI path or the basic fallback path — arranged
in non-increasing order of `match_score`; no job is dropped or duplicated even
when scoring raises an exception for some jobs. -/
theorem C9_matching_permutes_and_sorts (attempt : JobSearchAgent.Job → Except String Int)
    (job_results : List JobSearchAgent.Job) (user_profile : UserProfile) :
    ((JobSearchAgent.ai_job_matching attempt job_results user_profile).map
        JobSearchAgent.ScoredJob.job).Perm job_results ∧
    List.Pairwise (fun a b => b.match_score ≤ a.match_score)
      (JobSearchAgent.ai_job_matching attempt job_results user_profile) ∧
    (JobSearchAgent.ai_job_matching attempt job_results user_profile).all
      (fun sj => sj.match_score ==
        match attempt sj.job with
        | .ok s => s
        | .error _ => JobSearchAgent.calculate_basic_match_score sj.job user_profile) =
      true := by
  refine ⟨?_, ?_, ?_⟩
  · have h1 := (List.mergeSort_perm
      (job_results.map (JobSearchAgent.match_job_entry attempt user_profile))
      (fun a b => decide (b.match_score ≤ a.match_score))).map JobSearchAgent.ScoredJob.job
    have h2 : (job_results.map (JobSearchAgent.match_job_entry attempt user_profile)).map
        JobSearchAgent.ScoredJob.job = job_results := by
      rw [List.map_map]
      have : (JobSearchAgent.ScoredJob.job ∘ JobSearchAgent.match_job_entry attempt user_profile)
          = id := funext (fun j => match_job_entry_preserves_job attempt user_profile j)
      rw [this, List.map_id]
    rw [h2] at h1
    unfold JobSearchAgent.ai_job_matching
    exact h1
  · have hs := @List.sorted_mergeSort JobSearchAgent.ScoredJob
      (fun a b => decide (b.match_score ≤ a.match_score))
      (fun a b c hab hbc => by
        simp only [decide_eq_true_eq] at *
        omega)
      (fun a b => by
        simp only [Bool.or_eq_true, decide_eq_true_eq]
        omega)
      (job_results.map (JobSearchAgent.match_job_entry attempt user_profile))
    unfold JobSearchAgent.ai_job_matching
    exact hs.imp (fun h => by simpa using h)
  · rw [List.all_eq_true]
    intro sj hmem
    have hmem2 : sj ∈ job_results.map (JobSearchAgent.match_job_entry attempt user_profile) :=
      (List.mergeSort_perm _ _).mem_iff.mp hmem
    obtain ⟨j, hj, rfl⟩ := List.mem_map.mp hmem2
    rw [match_job_entry_preserves_job, match_job_entry_score]
    cases h : attempt j <;> simp

/-- C10: whenever a job's `salary_min` is at most its `salary_max`, the
`fit_level` returned by `analyze_salary_fit` is one of `Excellent`,
`Above Expectations` or `Below Expectations`; the `Good` branch (expectation
above the maximum yet at most the midpoint) is unreachable under that
precondition. -/
theorem C10_salary_fit_good_unreachable (job : EnhancedAgent.EJob)
    (user_profile : UserProfile) (h : job.salary_min ≤ job.salary_max) :
    ((EnhancedAgent.analyze_salary_fit job user_profile).fit_level = "Excellent" ∨
     (EnhancedAgent.analyze_salary_fit job user_profile).fit_level = "Above Expectations" ∨
     (EnhancedAgent.analyze_salary_fit job user_profile).fit_level = "Below Expectations") ∧
    (EnhancedAgent.analyze_salary_fit job user_profile).fit_level ≠ "Good" := by
  unfold EnhancedAgent.analyze_salary_fit
  have hEx : ("Excellent" : String) ≠ "Good" := by decide
  have hAb : ("Above Expectations" : String) ≠ "Good" := by decide
  have hBe : ("Below Expectations" : String) ≠ "Good" := by decide
  dsimp only
  split_ifs with h1 h2 h3
  · exact ⟨Or.inl rfl, hEx⟩
  · exact ⟨Or.inr (Or.inl rfl), hAb⟩
  · exfalso
    have hmax : job.salary_max < user_profile.salary_expectation.getD 75000 := by omega
    have hmaxQ : (job.salary_max : ℚ) < (user_profile.salary_expectation.getD 75000 : ℚ) := by
      exact_mod_cast hmax
    have hQ : (job.salary_min : ℚ) ≤ (job.salary_max : ℚ) := by exact_mod_cast h
    linarith [h3]
  · exact ⟨Or.inr (Or.inr rfl), hBe⟩

/-- C10 witness: a job paying 50000-90000 against the default expectation
75000 is in range, so the fit level is among the three reachable labels and is
not `Good`. -/
theorem C10_salary_fit_witness :
    (((EnhancedAgent.analyze_salary_fit
        { title := "Backend Engineer", company := "CloudFirst", location := "Austin"
          salary_min := 50000, salary_max := 90000, remote_friendly := false
          equity_offered := true
          company_details := { size := "Medium", industry := "Technology", rating := none }
          tech_stack := [], source := "linkedin", days_since_posted := 1
          salary_midpoint := 70000, match_score := 0 } {}).fit_level = "Excellent" ∨
      (EnhancedAgent.analyze_salary_fit
        { title := "Backend Engineer", company := "CloudFirst", location := "Austin"
          salary_min := 50000, salary_max := 90000, remote_friendly := false
          equity_offered := true
          company_details := { size := "Medium", industry := "Technology", rating := none }
          tech_stack := [], source := "linkedin", days_since_posted := 1
          salary_midpoint := 70000, match_score := 0 } {}).fit_level = "Above Expectations" ∨
      (EnhancedAgent.analyze_salary_fit
        { title := "Backend Engineer", company := "CloudFirst", location := "Austin"
          salary_min := 50000, salary_max := 90000, remote_friendly := false
          equity_offered := true
          company_details := { size := "Medium", industry := "Technology", rating := none }
          tech_stack := [], source := "linkedin", days_since_posted := 1
          salary_midpoint := 70000, match_score := 0 } {}).fit_level = "Below Expectations") ∧
     (EnhancedAgent.analyze_salary_fit
        { title := "Backend Engineer", company := "CloudFirst", location := "Austin"
          salary_min := 50000, salary_max := 90000, remote_friendly := false
          equity_offered := true
          company_details := { size := "Medium", industry := "Technology", rating := none }
          tech_stack := [], source := "linkedin", days_since_posted := 1
          salary_midpoint := 70000, match_score := 0 } {}).fit_level ≠ "Good") :=
  C10_salary_fit_good_unreachable _ {} (by decide)
